import Mathlib

/-!
# Verification of the Discord embed designer data model

Shallow embedding of the data-model layer of `discord_webhook.py`:
`EmbedField`, `Embed`, `MessageButton`, the history persistence codec
(`save_history` / `load_history`), and the webhook dispatch classification
(`send_webhook`).  Python strings are modelled as Lean `String`
(lists of unicode code points, matching Python's code-point semantics for
`len`, slicing and iteration); Python dicts with a fixed key set are modelled
as structures with `Option` fields (`none` = key absent); a Python function
that can raise is modelled as returning `Option` (`none` = exception).
-/

namespace DiscordWebhook

/-! ## Python string primitives

The helpers below model the Python `str` methods used by the source:
`strip()` (whitespace trim), `startswith`, `lower()` (restricted to its
ASCII action; the source only derives identifiers from button labels),
`replace(a, b)` for single characters, and slicing `s[:n]`.
-/

/-- Characters stripped by Python's `str.strip()` with no argument. -/
def isPySpace (c : Char) : Bool :=
  c == ' ' || c == '\t' || c == '\n' || c == '\r' || c == '\x0b' || c == '\x0c'

/-- `str.strip()` on the underlying character list. -/
def pyStripChars (cs : List Char) : List Char :=
  ((cs.dropWhile isPySpace).reverse.dropWhile isPySpace).reverse

/-- Python `s.strip()`. -/
def pyStrip (s : String) : String :=
  String.mk (pyStripChars s.data)

/-- Python `s.startswith(p)`. -/
def pyStartsWith (s p : String) : Bool :=
  List.isPrefixOf p.data s.data

/-- Python `s.lower()` (ASCII case folding, which covers the source's use). -/
def pyLower (s : String) : String :=
  String.mk (s.data.map Char.toLower)

/-- Python `s.replace(a, b)` for single-character `a`, `b`. -/
def pyReplaceChar (s : String) (a b : Char) : String :=
  String.mk (s.data.map (fun c => if c == a then b else c))

/-- Python `s[:n]` (slice of the first `n` code points). -/
def pyTake (n : Nat) (s : String) : String :=
  String.mk (s.data.take n)

/-! ## Python `int(s, 16)`

`Embed.to_dict` parses the color with `int(self.color.lstrip('#'), 16)`.
Python's `int` with base 16 strips surrounding whitespace, accepts an
optional sign, an optional `0x`/`0X` prefix (with at most one underscore
right after it), and hexadecimal digits separated by single underscores;
anything else raises `ValueError`, modelled as `none`. -/

/-- Hexadecimal digit test (`0-9a-fA-F`). -/
def isHexDigit (c : Char) : Bool :=
  ('0' ≤ c && c ≤ '9') || ('a' ≤ c && c ≤ 'f') || ('A' ≤ c && c ≤ 'F')

/-- Numeric value of a hexadecimal digit. -/
def hexVal (c : Char) : Nat :=
  if c ≤ '9' then c.toNat - 48
  else if c ≤ 'F' then c.toNat - 55
  else c.toNat - 87

/-- Digits after the first one: hex digits with single underscores between. -/
def parseHexLoop (acc : Nat) : List Char → Option Nat
  | [] => some acc
  | c :: rest =>
    if isHexDigit c then parseHexLoop (16 * acc + hexVal c) rest
    else if c == '_' then
      match rest with
      | [] => none
      | c2 :: rest2 =>
        if isHexDigit c2 then parseHexLoop (16 * acc + hexVal c2) rest2 else none
    else none

/-- A digit run must begin with a hex digit (no leading underscore). -/
def parseHexStart : List Char → Option Nat
  | [] => none
  | c :: rest => if isHexDigit c then parseHexLoop (hexVal c) rest else none

/-- After the optional sign: optional `0x`/`0X` prefix, then the digit run. -/
def parseAfterSign (cs : List Char) : Option Nat :=
  match cs with
  | c1 :: c2 :: rest =>
    if c1 == '0' && (c2 == 'x' || c2 == 'X') then
      match rest with
      | '_' :: rest2 => parseHexStart rest2
      | _ => parseHexStart rest
    else parseHexStart cs
  | _ => parseHexStart cs

/-- Python `int(s, 16)`; `none` models the raised `ValueError`. -/
def pyIntHex (s : String) : Option Int :=
  match pyStripChars s.data with
  | [] => none
  | c :: rest =>
    if c == '+' then (parseAfterSign rest).map (fun n => (n : Int))
    else if c == '-' then (parseAfterSign rest).map (fun n => -(n : Int))
    else (parseAfterSign (c :: rest)).map (fun n => (n : Int))

/-- Value of an unsigned hex digit string, most significant digit first. -/
def hexFold (cs : List Char) : Nat :=
  cs.foldl (fun a c => 16 * a + hexVal c) 0

/-! ## Discord limits (module constants of the source) -/

def MAX_TITLE : Nat := 256
def MAX_DESC : Nat := 4096
def MAX_FIELDS : Nat := 25
def MAX_FIELD_NAME : Nat := 256
def MAX_FIELD_VALUE : Nat := 1024
def MAX_FOOTER : Nat := 2048
def MAX_AUTHOR : Nat := 256

/-! ## Data model -/

/-- `EmbedField` dataclass. -/
structure EmbedField where
  name : String
  value : String
  inline : Bool := false
deriving DecidableEq

/-- `EmbedField.validate`. -/
def EmbedField.validate (f : EmbedField) : List String :=
  (if pyStrip f.name = "" then ["Field name cannot be empty"] else []) ++
  (if f.name.length > MAX_FIELD_NAME then
    ["Field name too long (" ++ toString f.name.length ++ "/" ++ toString MAX_FIELD_NAME ++ ")"]
   else []) ++
  (if pyStrip f.value = "" then ["Field value cannot be empty"] else []) ++
  (if f.value.length > MAX_FIELD_VALUE then
    ["Field value too long (" ++ toString f.value.length ++ "/" ++ toString MAX_FIELD_VALUE ++ ")"]
   else [])

/-- `Embed` dataclass, with the dataclass defaults. -/
structure Embed where
  title : String := ""
  description : String := ""
  color : String := "#5865F2"
  url : String := ""
  footer : String := ""
  footer_icon : String := ""
  author : String := ""
  author_icon : String := ""
  author_url : String := ""
  thumbnail : String := ""
  image : String := ""
  timestamp : Bool := false
  fields : List EmbedField := []
deriving DecidableEq

/-- The `for i, f in enumerate(self.fields)` loop of `Embed.validate`:
each field's violations prefixed with its 1-based position. -/
def fieldErrorList : Nat → List EmbedField → List String
  | _, [] => []
  | i, f :: rest =>
    f.validate.map (fun err => "Field " ++ toString (i + 1) ++ ": " ++ err) ++
    fieldErrorList (i + 1) rest

/-- `Embed.validate`. -/
def Embed.validate (e : Embed) : List String :=
  (if e.title ≠ "" ∧ e.title.length > MAX_TITLE then
    ["Title too long (" ++ toString e.title.length ++ "/" ++ toString MAX_TITLE ++ ")"]
   else []) ++
  (if e.description ≠ "" ∧ e.description.length > MAX_DESC then
    ["Description too long (" ++ toString e.description.length ++ "/" ++ toString MAX_DESC ++ ")"]
   else []) ++
  (if e.footer ≠ "" ∧ e.footer.length > MAX_FOOTER then
    ["Footer too long (" ++ toString e.footer.length ++ "/" ++ toString MAX_FOOTER ++ ")"]
   else []) ++
  (if e.author ≠ "" ∧ e.author.length > MAX_AUTHOR then
    ["Author too long (" ++ toString e.author.length ++ "/" ++ toString MAX_AUTHOR ++ ")"]
   else []) ++
  (if e.fields.length > MAX_FIELDS then
    ["Too many fields (" ++ toString e.fields.length ++ "/" ++ toString MAX_FIELDS ++ ")"]
   else []) ++
  fieldErrorList 0 e.fields

/-! ## Wire payload of `Embed.to_dict`

The payload dict has a fixed key set, modelled by structures with `Option`
fields; `none` means the key is absent.  `thumbnail` / `image` stand for the
emitted `{"url": v}` objects and carry just `v`.  The `timestamp` flag records
whether the key is present (the emitted value, `datetime.utcnow().isoformat()`,
is a wall-clock reading outside the data model). -/

structure FooterPayload where
  text : Option String := none
  icon_url : Option String := none
deriving DecidableEq

structure AuthorPayload where
  name : Option String := none
  icon_url : Option String := none
  url : Option String := none
deriving DecidableEq

structure FieldPayload where
  name : String
  value : String
  inline : Bool
deriving DecidableEq

structure EmbedPayload where
  title : Option String := none
  description : Option String := none
  url : Option String := none
  color : Option Int := none
  footer : Option FooterPayload := none
  author : Option AuthorPayload := none
  thumbnail : Option String := none
  image : Option String := none
  timestamp : Bool := false
  fields : Option (List FieldPayload) := none
deriving DecidableEq

/-- The defensive URL filter used throughout `to_dict`:
`u.startswith('http://') or u.startswith('https://')`. -/
def isHttpUrl (s : String) : Bool :=
  pyStartsWith s "http://" || pyStartsWith s "https://"

/-- The `color` line of `to_dict`:
`int(self.color.lstrip('#'), 16) if self.color.startswith('#') else 0`,
guarded by `if self.color:`.  Returns the color entry for the payload
(`none` = key omitted), or fails (outer `none`) when `int` raises. -/
def colorEntry (c : String) : Option (Option Int) :=
  if c = "" then some none
  else if pyStartsWith c "#" then
    match pyIntHex (String.mk (c.data.dropWhile (fun ch => ch == '#'))) with
    | some n => some (some n)
    | none => none
  else some (some 0)

/-- Sufficient condition on a color string for the parse in `to_dict` not to
raise: empty, or not `#`-prefixed, or leading `#`s followed by a non-empty
run of plain hex digits. -/
def colorSafe (c : String) : Bool :=
  c == "" || !(pyStartsWith c "#") ||
    (!(c.data.dropWhile (fun ch => ch == '#')).isEmpty &&
      (c.data.dropWhile (fun ch => ch == '#')).all isHexDigit)

/-- `Embed.to_dict`; `none` models the `ValueError` escaping from the
color parse (the only failing operation in the function). -/
def Embed.to_dict (e : Embed) : Option EmbedPayload :=
  match colorEntry e.color with
  | none => none
  | some colorField =>
    some {
      title := if e.title ≠ "" then some e.title else none,
      description := if e.description ≠ "" then some e.description else none,
      url := if e.url ≠ "" ∧ isHttpUrl e.url then some e.url else none,
      color := colorField,
      footer :=
        if e.footer ≠ "" ∨ e.footer_icon ≠ "" then
          some { text := if e.footer ≠ "" then some e.footer else none,
                 icon_url :=
                   if e.footer_icon ≠ "" ∧ isHttpUrl e.footer_icon then
                     some e.footer_icon
                   else none }
        else none,
      author :=
        if e.author ≠ "" ∨ e.author_icon ≠ "" ∨ e.author_url ≠ "" then
          some { name := if e.author ≠ "" then some e.author else none,
                 icon_url :=
                   if e.author_icon ≠ "" ∧ isHttpUrl e.author_icon then
                     some e.author_icon
                   else none,
                 url :=
                   if e.author_url ≠ "" ∧ isHttpUrl e.author_url then
                     some e.author_url
                   else none }
        else none,
      thumbnail := if e.thumbnail ≠ "" ∧ isHttpUrl e.thumbnail then some e.thumbnail else none,
      image := if e.image ≠ "" ∧ isHttpUrl e.image then some e.image else none,
      timestamp := e.timestamp,
      fields :=
        if e.fields ≠ [] then
          some (e.fields.map (fun f => { name := f.name, value := f.value, inline := f.inline }))
        else none }

/-! ## MessageButton -/

/-- `MessageButton` dataclass, with the dataclass defaults. -/
structure MessageButton where
  label : String
  url : String := ""
  style : String := "primary"
  emoji : String := ""
  disabled : Bool := false
deriving DecidableEq

/-- Button wire dict.  `type` is the fixed component discriminator (2);
`emoji` stands for the emitted `{"name": v}` object and carries just `v`;
`disabled` records whether the `disabled` key is present (its value is
always `True` when present). -/
structure ButtonPayload where
  type : Nat := 2
  label : Option String := none
  style : Nat := 1
  url : Option String := none
  custom_id : Option String := none
  emoji : Option String := none
  disabled : Bool := false
deriving DecidableEq

/-- The `style_map.get(self.style, 1)` lookup with
`style_map = {"primary": 1, "secondary": 2, "success": 3, "danger": 4}`. -/
def styleCode (s : String) : Nat :=
  if s = "primary" then 1
  else if s = "secondary" then 2
  else if s = "success" then 3
  else if s = "danger" then 4
  else 1

/-- `MessageButton.to_dict`.  Note the branch condition of the source is
`self.style == "link" and self.url`: a link button with an empty URL falls
into the non-link branch. -/
def MessageButton.to_dict (b : MessageButton) : ButtonPayload :=
  if b.style = "link" ∧ b.url ≠ "" then
    { type := 2,
      label := if b.label ≠ "" then some b.label else none,
      style := 5,
      url := some b.url,
      custom_id := none,
      emoji := if b.emoji ≠ "" ∧ pyStrip b.emoji ≠ "" then some b.emoji else none,
      disabled := b.disabled }
  else
    { type := 2,
      label := if b.label ≠ "" then some b.label else none,
      style := styleCode b.style,
      url := none,
      custom_id := some ("btn_" ++ pyReplaceChar (pyLower b.label) ' ' '_'),
      emoji := if b.emoji ≠ "" ∧ pyStrip b.emoji ≠ "" then some b.emoji else none,
      disabled := b.disabled }

/-- `MessageButton.validate`. -/
def MessageButton.validate (b : MessageButton) : List String :=
  (if b.label = "" then ["Button label is required"] else []) ++
  (if b.label.length > 80 then
    ["Button label too long (" ++ toString b.label.length ++ "/80)"]
   else []) ++
  (if b.style = "link" ∧ b.url = "" then ["Link buttons require a URL"] else [])

/-! ## Persistence codec

`save_history` writes `[asdict(e) for e in self.history[-50:]]` as JSON;
`load_history` parses the file and rebuilds each item with
`EmbedField(**f)` / `Embed(**item)`.  JSON documents are modelled by `J`
(`num` carries integers only — no stored document and no claim involves a
non-integral number; an object stands for a parsed Python dict, so its keys
are distinct). -/

inductive J where
  | str : String → J
  | num : Int → J
  | bool : Bool → J
  | null : J
  | arr : List J → J
  | obj : List (String × J) → J

/-- Dict key lookup. -/
def lookupJ : List (String × J) → String → Option J
  | [], _ => none
  | (k, v) :: rest, key => if k = key then some v else lookupJ rest key

/-- `asdict` of an `EmbedField`. -/
def encodeField (f : EmbedField) : J :=
  J.obj [("name", J.str f.name), ("value", J.str f.value), ("inline", J.bool f.inline)]

/-- `asdict` of an `Embed` (keys in dataclass declaration order). -/
def encodeEmbed (e : Embed) : J :=
  J.obj [("title", J.str e.title), ("description", J.str e.description),
         ("color", J.str e.color), ("url", J.str e.url), ("footer", J.str e.footer),
         ("footer_icon", J.str e.footer_icon), ("author", J.str e.author),
         ("author_icon", J.str e.author_icon), ("author_url", J.str e.author_url),
         ("thumbnail", J.str e.thumbnail), ("image", J.str e.image),
         ("timestamp", J.bool e.timestamp), ("fields", J.arr (e.fields.map encodeField))]

def fieldKeys : List String := ["name", "value", "inline"]

def embedKeys : List String :=
  ["title", "description", "color", "url", "footer", "footer_icon", "author",
   "author_icon", "author_url", "thumbnail", "image", "timestamp", "fields"]

/-- `EmbedField(**f)`: an unknown keyword or a missing `name`/`value`
raises `TypeError` (`none`).  A value of the wrong runtime type would be
accepted by the untyped constructor, building an ill-typed object; the
typed embedding rejects it — no stored document produced by `save_history`
and no claim exercises that corner. -/
def decodeField (j : J) : Option EmbedField :=
  match j with
  | J.obj kvs =>
    if (kvs.map Prod.fst).all (fun k => fieldKeys.contains k) then
      match lookupJ kvs "name", lookupJ kvs "value" with
      | some (J.str n), some (J.str v) =>
        match lookupJ kvs "inline" with
        | none => some { name := n, value := v, inline := false }
        | some (J.bool b) => some { name := n, value := v, inline := b }
        | some _ => none
      | _, _ => none
    else none
  | _ => none

/-- The `[EmbedField(**f) for f in ...]` comprehension: first failure
aborts the whole decode. -/
def decodeFields : List J → Option (List EmbedField)
  | [] => some []
  | j :: rest =>
    match decodeField j with
    | none => none
    | some f =>
      match decodeFields rest with
      | none => none
      | some fs => some (f :: fs)

/-- String attribute of `Embed(**item)`: dataclass default when the key is
absent (same typing caveat as `decodeField`). -/
def getStr (kvs : List (String × J)) (k : String) (dflt : String) : Option String :=
  match lookupJ kvs k with
  | none => some dflt
  | some (J.str s) => some s
  | some _ => none

/-- Bool attribute of `Embed(**item)`. -/
def getBool (kvs : List (String × J)) (k : String) (dflt : Bool) : Option Bool :=
  match lookupJ kvs k with
  | none => some dflt
  | some (J.bool b) => some b
  | some _ => none

/-- The scalar attributes of `Embed(**item)`, with the already-decoded
field list substituted for the `fields` key. -/
def decodeScalars (kvs : List (String × J)) (fs : List EmbedField) : Option Embed := do
  let title ← getStr kvs "title" ""
  let description ← getStr kvs "description" ""
  let color ← getStr kvs "color" "#5865F2"
  let url ← getStr kvs "url" ""
  let footer ← getStr kvs "footer" ""
  let footer_icon ← getStr kvs "footer_icon" ""
  let author ← getStr kvs "author" ""
  let author_icon ← getStr kvs "author_icon" ""
  let author_url ← getStr kvs "author_url" ""
  let thumbnail ← getStr kvs "thumbnail" ""
  let image ← getStr kvs "image" ""
  let timestamp ← getBool kvs "timestamp" false
  some { title := title, description := description, color := color, url := url,
         footer := footer, footer_icon := footer_icon, author := author,
         author_icon := author_icon, author_url := author_url, thumbnail := thumbnail,
         image := image, timestamp := timestamp, fields := fs }

/-- One item of `load_history`:
`fields = [EmbedField(**f) for f in item.get("fields", [])]` followed by
`Embed(**item)`.  An unknown key in `item` raises `TypeError` (`none`).
Iterating a non-list `fields` value raises, except for the empty dict and
empty string, which iterate to nothing. -/
def decodeEmbed (j : J) : Option Embed :=
  match j with
  | J.obj kvs =>
    if (kvs.map Prod.fst).all (fun k => embedKeys.contains k) then
      match lookupJ kvs "fields" with
      | none => decodeScalars kvs []
      | some (J.arr fjs) =>
        match decodeFields fjs with
        | some fs => decodeScalars kvs fs
        | none => none
      | some (J.obj []) => decodeScalars kvs []
      | some (J.str "") => decodeScalars kvs []
      | some _ => none
    else none
  | _ => none

/-- The decode loop of `load_history`: runs inside one `try`, so the first
failure aborts the whole load. -/
def decodeItems : List J → Option (List Embed)
  | [] => some []
  | j :: rest =>
    match decodeEmbed j with
    | none => none
    | some e =>
      match decodeItems rest with
      | none => none
      | some es => some (e :: es)

/-- `load_history` on an already-parsed store document: any failure while
rebuilding (including a non-list top level) lands in the `except` handler,
which sets `self.history = []`. -/
def load_history (j : J) : List Embed :=
  match j with
  | J.arr items => (decodeItems items).getD []
  | _ => []

/-- `save_history`: the persisted document is
`[asdict(e) for e in self.history[-50:]]`. -/
def save_history (history : List Embed) : List J :=
  (history.drop (history.length - 50)).map encodeEmbed

/-! ## Webhook dispatch

`send_webhook` performs one `requests.post` and classifies the outcome.
The network interaction is abstracted as an `HttpOutcome`: the status,
the parsed JSON body (`none` when `response.json()` would raise) and the
raw body text of the single POST, or a transport failure with the
exception's text. -/

inductive HttpOutcome where
  | response : Nat → Option J → String → HttpOutcome
  | failure : String → HttpOutcome

/-- Outcome classification: `Success` (the success message box),
`RemoteRejected` (the "Discord Error" box, carrying the status and the
extracted server message), `TransportError` (the "Network Error" box). -/
inductive SendResult where
  | success : SendResult
  | remoteRejected : Nat → String → SendResult
  | transportError : String → SendResult
deriving DecidableEq

mutual

/-- Python `str()` of a parsed-JSON value, used when the error body's
`message` value is not a string (repr quoting is modelled without escape
handling; no claim exercises this branch). -/
def pyReprJ : J → String
  | J.str s => String.mk ('\x27' :: s.data ++ ['\x27'])
  | J.num n => toString n
  | J.bool b => if b then "True" else "False"
  | J.null => "None"
  | J.arr es => "[" ++ pyReprList es ++ "]"
  | J.obj kvs => "\x7b" ++ pyReprObj kvs ++ "\x7d"

/-- Comma-joined reprs of a list's elements. -/
def pyReprList : List J → String
  | [] => ""
  | [j] => pyReprJ j
  | j :: rest => pyReprJ j ++ ", " ++ pyReprList rest

/-- Comma-joined reprs of a dict's entries. -/
def pyReprObj : List (String × J) → String
  | [] => ""
  | [(k, v)] => String.mk ('\x27' :: k.data ++ ['\x27']) ++ ": " ++ pyReprJ v
  | (k, v) :: rest =>
    String.mk ('\x27' :: k.data ++ ['\x27']) ++ ": " ++ pyReprJ v ++ ", " ++ pyReprObj rest

end

/-- Python `str()` (top-level strings print unquoted). -/
def pyStrJ : J → String
  | J.str s => s
  | j => pyReprJ j

/-- The message surfaced on a non-2xx response:
`error_json.get('message', 'Unknown error')` when the body parses as a
dict (`.get` on a non-dict raises, caught by the inner `except`), else the
truncated raw body `response.text[:300]`. -/
def remoteMessage (body : Option J) (text : String) : String :=
  match body with
  | some (J.obj kvs) =>
    match lookupJ kvs "message" with
    | some (J.str m) => m
    | some v => pyStrJ v
    | none => "Unknown error"
  | _ => pyTake 300 text

/-- Classification of the single POST's outcome. -/
def classify : HttpOutcome → SendResult
  | HttpOutcome.failure msg => SendResult.transportError msg
  | HttpOutcome.response status body text =>
    if status = 200 ∨ status = 204 then SendResult.success
    else SendResult.remoteRejected status (remoteMessage body text)

/-- The dispatch payload `{"embeds": [...], "username"?, "avatar_url"?}`. -/
structure WebhookPayload where
  embeds : List EmbedPayload
  username : Option String := none
  avatar_url : Option String := none
deriving DecidableEq

/-- Payload construction: `{"embeds": [self.current_embed.to_dict()]}` plus
`username` / `avatar_url` when truthy.  Both dialog inputs are `.strip()`ed
before the truthiness check (lines 3098-3099 of the source), so a
whitespace-only entry is omitted. -/
def build_payload (e : Embed) (usernameRaw avatarRaw : String) : Option WebhookPayload :=
  match e.to_dict with
  | none => none
  | some d =>
    some { embeds := [d],
           username := if pyStrip usernameRaw ≠ "" then some (pyStrip usernameRaw) else none,
           avatar_url := if pyStrip avatarRaw ≠ "" then some (pyStrip avatarRaw) else none }

/-- Result handling of `send_webhook`: on 200/204 the sent embed is
appended to the in-memory history; every other outcome leaves it
untouched.  The model consumes exactly one `HttpOutcome` — the source
performs a single `requests.post` with no retry. -/
def send_webhook (history : List Embed) (e : Embed) (outcome : HttpOutcome) :
    SendResult × List Embed :=
  match classify outcome with
  | SendResult.success => (SendResult.success, history ++ [e])
  | r => (r, history)

/-- `N` successful sends (HTTP 204 each time) starting from an empty
in-memory history. -/
def runSends (sends : List Embed) : List Embed :=
  sends.foldl (fun h e => (send_webhook h e (HttpOutcome.response 204 none "")).2) []

/-! ## Concrete sample inputs used by witnesses and counterexamples -/

/-- An embed whose color is `#`-prefixed but not hexadecimal. -/
def embedBadColor : Embed := { color := "#ZZ" }

/-- An embed with a non-http thumbnail and no color. -/
def embedFtpThumb : Embed := { color := "", thumbnail := "ftp://x" }

/-- A valid embed with one field (the spec's end-to-end example). -/
def embedSample : Embed :=
  { title := "Hi", description := "World", color := "#3BA55C",
    fields := [{ name := "A", value := "B", inline := true }] }

/-- An embed with 26 fields, the first of which has a blank name. -/
def embedManyFields : Embed :=
  { fields := { name := "", value := "v" } :: List.replicate 25 { name := "n", value := "v" } }

/-- A link-style button with an empty URL. -/
def buttonLinkNoUrl : MessageButton := { label := "x", style := "link" }

/-- A link-style button with a URL. -/
def buttonLink : MessageButton := { label := "Go Now", style := "link", url := "https://x" }

/-- A stored embed document carrying a key no `Embed` attribute matches. -/
def docUnknownKey : J := J.obj [("title", J.str "x"), ("brand_new_key", J.str "y")]

/-- The wire payload of the default `Embed` (color `#5865F2`). -/
def payloadDefault : EmbedPayload := { color := some 5793266 }

/-! ## Helper lemmas: prefixes of appended strings, and the hex parser on digit strings -/

theorem isPrefixOf_trunc {p a : List Char} (b : List Char) (hl : p.length ≤ a.length) :
    List.isPrefixOf p (a ++ b) = List.isPrefixOf p a := by
  induction p generalizing a with
  | nil => simp [List.isPrefixOf]
  | cons c p ih =>
    cases a with
    | nil => simp at hl
    | cons d a2 =>
      simp only [List.cons_append, List.isPrefixOf, List.append_eq]
      rw [ih (Nat.le_of_succ_le_succ hl)]

theorem isPrefixOf_append_short {a p : List Char} (b : List Char) (hl : a.length ≤ p.length)
    (h : List.isPrefixOf a p = false) : List.isPrefixOf p (a ++ b) = false := by
  induction a generalizing p with
  | nil => simp [List.isPrefixOf] at h
  | cons d a2 ih =>
    cases p with
    | nil => simp at hl
    | cons c p2 =>
      simp only [List.cons_append, List.isPrefixOf, List.append_eq]
      by_cases hdc : d = c
      · subst hdc
        simp only [List.isPrefixOf, beq_self_eq_true, Bool.true_and] at h
        simp [ih (Nat.le_of_succ_le_succ hl) h]
      · have hcd : (c == d) = false := by
          simp only [beq_eq_false_iff_ne, Ne]
          exact fun hcd => hdc hcd.symm
        simp [hcd]

theorem hex_bne {c : Char} (h : isHexDigit c = true) :
    (c == '+') = false ∧ (c == '-') = false ∧ (c == 'x') = false ∧
    (c == 'X') = false ∧ (c == '#') = false ∧ isPySpace c = false := by
  have hne : ∀ d : Char, isHexDigit d = false → (c == d) = false := by
    intro d hd
    cases hq : c == d
    · rfl
    · exfalso
      have hcd : c = d := by simpa using hq
      rw [hcd, hd] at h
      exact Bool.noConfusion h
  refine ⟨hne '+' (by decide), hne '-' (by decide), hne 'x' (by decide),
    hne 'X' (by decide), hne '#' (by decide), ?_⟩
  cases hs : isPySpace c
  · rfl
  · exfalso
    simp only [isPySpace, Bool.or_eq_true, beq_iff_eq] at hs
    rcases hs with ((((rfl | rfl) | rfl) | rfl) | rfl) | rfl <;> exact absurd h (by decide)

theorem parseHexLoop_all (cs : List Char) : ∀ acc : Nat, cs.all isHexDigit = true →
    parseHexLoop acc cs = some (cs.foldl (fun a c => 16 * a + hexVal c) acc) := by
  induction cs with
  | nil => intro acc _; rfl
  | cons c rest ih =>
    intro acc h
    rw [List.all_cons, Bool.and_eq_true] at h
    rw [List.foldl_cons]
    have hstep : parseHexLoop acc (c :: rest) = parseHexLoop (16 * acc + hexVal c) rest := by
      conv_lhs => rw [parseHexLoop.eq_def]
      simp [h.1]
    rw [hstep, ih _ h.2]

theorem pyStartsWith_append_long (a b p : String)
    (h : List.isPrefixOf p.data a.data = false) (hl : p.data.length ≤ a.data.length) :
    pyStartsWith (a ++ b) p = false := by
  simp only [pyStartsWith, String.data_append]
  rw [isPrefixOf_trunc b.data hl, h]

theorem pyStartsWith_append_short (a b p : String)
    (h : List.isPrefixOf a.data p.data = false) (hl : a.data.length ≤ p.data.length) :
    pyStartsWith (a ++ b) p = false := by
  simp only [pyStartsWith, String.data_append]
  exact isPrefixOf_append_short b.data hl h

theorem pyStartsWith_append_of_isPrefixOf (a b p : String)
    (h : List.isPrefixOf p.data a.data = true) :
    pyStartsWith (a ++ b) p = true := by
  simp only [pyStartsWith, String.data_append]
  rw [isPrefixOf_trunc b.data, h]
  exact List.IsPrefix.length_le (List.isPrefixOf_iff_prefix.mp h)

theorem parseHexStart_all (cs : List Char) (hne : cs ≠ []) (hhex : cs.all isHexDigit = true) :
    parseHexStart cs = some (hexFold cs) := by
  rcases cs with _ | ⟨c, rest⟩
  · exact absurd rfl hne
  · rw [List.all_cons, Bool.and_eq_true] at hhex
    simp [parseHexStart, hhex.1, parseHexLoop_all rest _ hhex.2, hexFold]

theorem parseAfterSign_all (cs : List Char) (hne : cs ≠ []) (hhex : cs.all isHexDigit = true) :
    parseAfterSign cs = some (hexFold cs) := by
  rcases cs with _ | ⟨c, rest⟩
  · exact absurd rfl hne
  · rcases rest with _ | ⟨c2, rest2⟩
    · simpa [parseAfterSign] using parseHexStart_all [c] (by simp) hhex
    · have h2 : isHexDigit c2 = true := by
        rw [List.all_cons, List.all_cons, Bool.and_eq_true, Bool.and_eq_true] at hhex
        exact hhex.2.1
      have hb := hex_bne h2
      simp only [parseAfterSign, hb.2.2.1, hb.2.2.2.1, Bool.or_self, Bool.and_false,
        Bool.false_eq_true, if_false]
      exact parseHexStart_all (c :: c2 :: rest2) (by simp) hhex

theorem dropWhile_eq_self_of_not {p : Char → Bool} {cs : List Char}
    (h : ∀ c ∈ cs, p c = false) : cs.dropWhile p = cs := by
  cases cs with
  | nil => rfl
  | cons c rest => simp [List.dropWhile_cons, h c (by simp)]

theorem pyStripChars_eq_self {cs : List Char} (h : ∀ c ∈ cs, isPySpace c = false) :
    pyStripChars cs = cs := by
  unfold pyStripChars
  rw [dropWhile_eq_self_of_not h,
    dropWhile_eq_self_of_not (fun c hc => h c (List.mem_reverse.mp hc)),
    List.reverse_reverse]

theorem pyIntHex_all_hex (cs : List Char) (hne : cs ≠ []) (hhex : cs.all isHexDigit = true) :
    pyIntHex (String.mk cs) = some ((hexFold cs : Nat) : Int) := by
  have hstrip : pyStripChars cs = cs :=
    pyStripChars_eq_self (fun c hc => (hex_bne (by
      rw [List.all_eq_true] at hhex
      exact hhex c hc)).2.2.2.2.2)
  unfold pyIntHex
  rw [show (String.mk cs).data = cs from rfl, hstrip]
  rcases cs with _ | ⟨c, rest⟩
  · exact absurd rfl hne
  · have h1 : isHexDigit c = true := by
      rw [List.all_cons, Bool.and_eq_true] at hhex
      exact hhex.1
    have hb := hex_bne h1
    simp [hb.1, hb.2.1, parseAfterSign_all (c :: rest) (by simp) hhex]

/-! ## Resolving `to_dict` once the color entry is known -/

theorem colorEntry_empty : colorEntry "" = some none := rfl

theorem colorEntry_nohash (c : String) (h1 : c ≠ "") (h2 : pyStartsWith c "#" = false) :
    colorEntry c = some (some 0) := by
  unfold colorEntry
  rw [if_neg h1]
  simp [h2]

theorem colorEntry_hash_hex (s : String) (hne : s.data ≠ []) (hhex : s.data.all isHexDigit = true) :
    colorEntry ("#" ++ s) = some (some ((hexFold s.data : Nat) : Int)) := by
  have hdata : ("#" ++ s).data = '#' :: s.data := by
    rw [String.data_append]
    rfl
  have hne2 : ("#" ++ s) ≠ "" := by
    intro hcontra
    rw [String.ext_iff, hdata] at hcontra
    simp at hcontra
  have hstart : pyStartsWith ("#" ++ s) "#" = true := by
    simp [pyStartsWith, hdata, List.isPrefixOf]
  have hdrop : ("#" ++ s).data.dropWhile (fun ch => ch == '#') = s.data := by
    rw [hdata, List.dropWhile_cons]
    simp only [beq_self_eq_true, if_true]
    exact dropWhile_eq_self_of_not (fun c hc => (hex_bne (by
      rw [List.all_eq_true] at hhex
      exact hhex c hc)).2.2.2.2.1)
  unfold colorEntry
  rw [if_neg hne2, if_pos hstart, hdrop, pyIntHex_all_hex s.data hne hhex]

theorem colorEntry_safe (c : String) (h : colorSafe c = true) : ∃ v, colorEntry c = some v := by
  by_cases h0 : c = ""
  · exact ⟨none, by rw [h0]; rfl⟩
  · by_cases hstart : pyStartsWith c "#" = true
    · have hA : (c == "") = false := by simp [h0]
      have hB : (!pyStartsWith c "#") = false := by rw [hstart]; rfl
      unfold colorSafe at h
      rw [hA, hB] at h
      simp only [Bool.false_or, Bool.and_eq_true] at h
      have hne : c.data.dropWhile (fun ch => ch == '#') ≠ [] := by
        intro hcontra
        rw [hcontra] at h
        simp at h
      refine ⟨some ((hexFold (c.data.dropWhile (fun ch => ch == '#')) : Nat) : Int), ?_⟩
      unfold colorEntry
      rw [if_neg h0, if_pos hstart, pyIntHex_all_hex _ hne h.2]
    · exact ⟨some 0, colorEntry_nohash c h0 (by simpa using hstart)⟩

/-- The payload `to_dict` builds once the color parse has produced `v`. -/
theorem to_dict_eq (e : Embed) (v : Option Int) (h : colorEntry e.color = some v) :
    e.to_dict = some {
      title := if e.title ≠ "" then some e.title else none,
      description := if e.description ≠ "" then some e.description else none,
      url := if e.url ≠ "" ∧ isHttpUrl e.url then some e.url else none,
      color := v,
      footer :=
        if e.footer ≠ "" ∨ e.footer_icon ≠ "" then
          some { text := if e.footer ≠ "" then some e.footer else none,
                 icon_url :=
                   if e.footer_icon ≠ "" ∧ isHttpUrl e.footer_icon then
                     some e.footer_icon
                   else none }
        else none,
      author :=
        if e.author ≠ "" ∨ e.author_icon ≠ "" ∨ e.author_url ≠ "" then
          some { name := if e.author ≠ "" then some e.author else none,
                 icon_url :=
                   if e.author_icon ≠ "" ∧ isHttpUrl e.author_icon then
                     some e.author_icon
                   else none,
                 url :=
                   if e.author_url ≠ "" ∧ isHttpUrl e.author_url then
                     some e.author_url
                   else none }
        else none,
      thumbnail := if e.thumbnail ≠ "" ∧ isHttpUrl e.thumbnail then some e.thumbnail else none,
      image := if e.image ≠ "" ∧ isHttpUrl e.image then some e.image else none,
      timestamp := e.timestamp,
      fields :=
        if e.fields ≠ [] then
          some (e.fields.map (fun f => { name := f.name, value := f.value, inline := f.inline }))
        else none } := by
  unfold Embed.to_dict
  rw [h]

/-! ## C1 -/

/-- C1 (counterexample): an embed whose color is `#`-prefixed but not
hexadecimal makes `to_dict` raise `ValueError` (modelled as `none`), so
serialization does not always return a payload. -/
theorem spec_c1_counterexample : embedBadColor.to_dict = none := by decide

/-- C1 (amended): `to_dict` returns a payload for every embed whose color
is empty, not `#`-prefixed, or `#`-prefixed with a hexadecimal remainder;
the color parse is the only raising operation. -/
theorem spec_c1_no_raise (e : Embed) (h : colorSafe e.color = true) :
    ∃ d, e.to_dict = some d := by
  rcases colorEntry_safe e.color h with ⟨v, hv⟩
  exact ⟨_, to_dict_eq e v hv⟩

/-- C1 (witness): the default embed serializes to a payload. -/
theorem spec_c1_no_raise_witness :
    colorSafe (({} : Embed)).color = true ∧ (∃ d, ({} : Embed).to_dict = some d) :=
  ⟨by decide, spec_c1_no_raise {} (by decide)⟩

/-! ## C9 -/

/-- C9: a `#`-prefixed hex color is emitted as the string parsed as a
base-16 integer, and an unset (empty) color omits the `color` key. -/
theorem spec_c9_color_hex (e : Embed) :
    (e.color = "" → ∀ d, e.to_dict = some d → d.color = none) ∧
    (∀ s : String, e.color = "#" ++ s → s.data ≠ [] → s.data.all isHexDigit = true →
      ∃ d, e.to_dict = some d ∧ d.color = some ((hexFold s.data : Nat) : Int)) := by
  constructor
  · intro h0 d hd
    have he := to_dict_eq e none (by rw [h0]; rfl)
    rw [he] at hd
    injection hd with h
    rw [← h]
  · intro s hs hne hhex
    refine ⟨_, to_dict_eq e _ ?_, rfl⟩
    rw [hs]
    exact colorEntry_hash_hex s hne hhex

/-- C9 (witness): `color = "#5865F2"` yields payload color `5793266`. -/
theorem spec_c9_color_hex_witness :
    ("#5865F2" : String) = "#" ++ "5865F2" ∧ hexFold "5865F2".data = 5793266 ∧
    (∃ d, ({ color := "#5865F2" } : Embed).to_dict = some d ∧
      d.color = some ((hexFold "5865F2".data : Nat) : Int)) :=
  ⟨by decide, by decide,
    (spec_c9_color_hex { color := "#5865F2" }).2 "5865F2" (by decide) (by decide) (by decide)⟩

/-! ## C10 -/

/-- C10: a non-empty color that does not start with `#` is emitted as the
literal payload value `color = 0` (neither parsed nor omitted nor an error). -/
theorem spec_c10_color_zero (e : Embed) (h1 : e.color ≠ "") (h2 : pyStartsWith e.color "#" = false) :
    ∃ d, e.to_dict = some d ∧ d.color = some 0 :=
  ⟨_, to_dict_eq e (some 0) (colorEntry_nohash e.color h1 h2), rfl⟩

/-- C10 (witness): `color = "blue"` yields payload color `0`. -/
theorem spec_c10_color_zero_witness :
    ({ color := "blue" } : Embed).color ≠ "" ∧
    pyStartsWith ({ color := "blue" } : Embed).color "#" = false ∧
    (∃ d, ({ color := "blue" } : Embed).to_dict = some d ∧ d.color = some 0) :=
  ⟨by decide, by decide, spec_c10_color_zero { color := "blue" } (by decide) (by decide)⟩

/-! ## C2 -/

theorem to_dict_some_shape (e : Embed) (d : EmbedPayload) (h : e.to_dict = some d) :
    ∃ v, colorEntry e.color = some v ∧ e.to_dict = some d ∧
      d = { title := if e.title ≠ "" then some e.title else none,
            description := if e.description ≠ "" then some e.description else none,
            url := if e.url ≠ "" ∧ isHttpUrl e.url then some e.url else none,
            color := v,
            footer :=
              if e.footer ≠ "" ∨ e.footer_icon ≠ "" then
                some { text := if e.footer ≠ "" then some e.footer else none,
                       icon_url :=
                         if e.footer_icon ≠ "" ∧ isHttpUrl e.footer_icon then
                           some e.footer_icon
                         else none }
              else none,
            author :=
              if e.author ≠ "" ∨ e.author_icon ≠ "" ∨ e.author_url ≠ "" then
                some { name := if e.author ≠ "" then some e.author else none,
                       icon_url :=
                         if e.author_icon ≠ "" ∧ isHttpUrl e.author_icon then
                           some e.author_icon
                         else none,
                       url :=
                         if e.author_url ≠ "" ∧ isHttpUrl e.author_url then
                           some e.author_url
                         else none }
              else none,
            thumbnail := if e.thumbnail ≠ "" ∧ isHttpUrl e.thumbnail then some e.thumbnail else none,
            image := if e.image ≠ "" ∧ isHttpUrl e.image then some e.image else none,
            timestamp := e.timestamp,
            fields :=
              if e.fields ≠ [] then
                some (e.fields.map (fun f => { name := f.name, value := f.value, inline := f.inline }))
              else none } := by
  cases hc : colorEntry e.color with
  | none =>
    unfold Embed.to_dict at h
    rw [hc] at h
    cases h
  | some v =>
    have he := to_dict_eq e v hc
    rw [he] at h
    injection h with h2
    exact ⟨v, rfl, he.trans (by rw [h2]), h2.symm⟩

/-- C2: `to_dict` emits no key for an unset optional scalar, emits a
`footer`/`author` object only when one of its parts is set, and drops every
URL-bearing value that does not start with `http://` or `https://`. -/
theorem spec_c2_omissions (e : Embed) (d : EmbedPayload) (h : e.to_dict = some d) :
    (e.title = "" → d.title = none) ∧
    (e.description = "" → d.description = none) ∧
    (e.footer = "" ∧ e.footer_icon = "" → d.footer = none) ∧
    (d.footer.isSome = true → e.footer ≠ "" ∨ e.footer_icon ≠ "") ∧
    (e.author = "" ∧ e.author_icon = "" ∧ e.author_url = "" → d.author = none) ∧
    (d.author.isSome = true → e.author ≠ "" ∨ e.author_icon ≠ "" ∨ e.author_url ≠ "") ∧
    (isHttpUrl e.url = false → d.url = none) ∧
    (isHttpUrl e.thumbnail = false → d.thumbnail = none) ∧
    (isHttpUrl e.image = false → d.image = none) ∧
    (∀ fo, d.footer = some fo → isHttpUrl e.footer_icon = false → fo.icon_url = none) ∧
    (∀ ao, d.author = some ao → isHttpUrl e.author_icon = false → ao.icon_url = none) ∧
    (∀ ao, d.author = some ao → isHttpUrl e.author_url = false → ao.url = none) ∧
    (e.fields = [] → d.fields = none) := by
  rcases to_dict_some_shape e d h with ⟨v, _hv, _he, rfl⟩
  dsimp only
  refine ⟨fun h0 => by simp [h0], fun h0 => by simp [h0],
    fun h0 => by simp [h0.1, h0.2], ?_,
    fun h0 => by simp [h0.1, h0.2.1, h0.2.2], ?_,
    fun h0 => by simp [h0], fun h0 => by simp [h0], fun h0 => by simp [h0],
    ?_, ?_, ?_, fun h0 => by simp [h0]⟩
  · intro hf
    by_cases hc : e.footer ≠ "" ∨ e.footer_icon ≠ ""
    · exact hc
    · rw [if_neg hc] at hf
      cases hf
  · intro ha
    by_cases hc : e.author ≠ "" ∨ e.author_icon ≠ "" ∨ e.author_url ≠ ""
    · exact hc
    · rw [if_neg hc] at ha
      cases ha
  · intro fo hfo hic
    by_cases hc : e.footer ≠ "" ∨ e.footer_icon ≠ ""
    · rw [if_pos hc] at hfo
      injection hfo with hfo2
      rw [← hfo2]
      simp [hic]
    · rw [if_neg hc] at hfo
      cases hfo
  · intro ao hao hic
    by_cases hc : e.author ≠ "" ∨ e.author_icon ≠ "" ∨ e.author_url ≠ ""
    · rw [if_pos hc] at hao
      injection hao with hao2
      rw [← hao2]
      simp [hic]
    · rw [if_neg hc] at hao
      cases hao
  · intro ao hao hau
    by_cases hc : e.author ≠ "" ∨ e.author_icon ≠ "" ∨ e.author_url ≠ ""
    · rw [if_pos hc] at hao
      injection hao with hao2
      rw [← hao2]
      simp [hau]
    · rw [if_neg hc] at hao
      cases hao

/-- C2 (witness): an embed whose only set optional is `thumbnail = "ftp://x"`
serializes to a payload with no `thumbnail` key and no `footer` key. -/
theorem spec_c2_omissions_witness :
    embedFtpThumb.to_dict = some {} ∧
    isHttpUrl embedFtpThumb.thumbnail = false ∧
    ({} : EmbedPayload).thumbnail = none ∧ ({} : EmbedPayload).footer = none := by
  refine ⟨by decide, by decide, ?_, ?_⟩
  · exact (spec_c2_omissions embedFtpThumb {} (by decide)).2.2.2.2.2.2.2.1 (by decide)
  · exact (spec_c2_omissions embedFtpThumb {} (by decide)).2.2.1 (by decide)

/-! ## C4 -/

theorem filter_cond_none (P : String → Bool) {c : Prop} [Decidable c] (m : String)
    (h : P m = false) : List.filter P (if c then [m] else []) = [] := by
  split
  · simp [List.filter_cons, h]
  · rfl

theorem pyStartsWith_toomany_false (a x y : String)
    (hlen : ("Too many fields" : String).data.length ≤ a.data.length)
    (hpre : List.isPrefixOf ("Too many fields" : String).data a.data = false) :
    pyStartsWith (a ++ x ++ "/" ++ y ++ ")") "Too many fields" = false := by
  unfold pyStartsWith
  simp only [String.data_append, List.append_assoc]
  rw [isPrefixOf_trunc _ hlen, hpre]

theorem pyStartsWith_toomany_true (x y : String) :
    pyStartsWith ("Too many fields (" ++ x ++ "/" ++ y ++ ")") "Too many fields" = true := by
  unfold pyStartsWith
  simp only [String.data_append, List.append_assoc]
  rw [isPrefixOf_trunc _ (by decide)]
  decide

theorem pyStartsWith_field_false (x y : String) :
    pyStartsWith ("Field " ++ x ++ ": " ++ y) "Too many fields" = false := by
  unfold pyStartsWith
  simp only [String.data_append, List.append_assoc]
  exact isPrefixOf_append_short _ (by decide) (by decide)

theorem filter_toomany_fieldErrorList (fs : List EmbedField) : ∀ i : Nat,
    List.filter (fun m => pyStartsWith m "Too many fields") (fieldErrorList i fs) = [] := by
  induction fs with
  | nil => intro i; rfl
  | cons f rest ih =>
    intro i
    rw [fieldErrorList, List.filter_append, ih, List.append_nil, List.filter_eq_nil_iff]
    intro m hm
    rcases List.mem_map.mp hm with ⟨err, _, rfl⟩
    simp [pyStartsWith_field_false]

theorem mem_fieldErrorList (fs : List EmbedField) : ∀ (start i : Nat) (f : EmbedField)
    (err : String), fs.get? i = some f → err ∈ f.validate →
    ("Field " ++ toString (start + i + 1) ++ ": " ++ err) ∈ fieldErrorList start fs := by
  induction fs with
  | nil => intro start i f err h _; cases h
  | cons g rest ih =>
    intro start i f err hget herr
    cases i with
    | zero =>
      have h1 : g = f := by simpa [List.get?] using hget
      subst h1
      rw [fieldErrorList]
      apply List.mem_append_left
      have hidx : start + 0 + 1 = start + 1 := by omega
      rw [hidx]
      exact List.mem_map.mpr ⟨err, herr, rfl⟩
    | succ j =>
      rw [fieldErrorList]
      apply List.mem_append_right
      have hidx : start + (j + 1) + 1 = start + 1 + j + 1 := by omega
      rw [hidx]
      exact ih (start + 1) j f err (by simpa [List.get?] using hget) herr

/-- C4: `validate` aggregates everything without short-circuiting: with more
than 25 fields it reports exactly one "Too many fields" violation, and every
violation of the `i`-th field (0-based `i`) appears prefixed with its 1-based
position. -/
theorem spec_c4_validate (e : Embed) :
    (e.fields.length > 25 →
      (List.filter (fun m => pyStartsWith m "Too many fields") e.validate).length = 1) ∧
    (∀ (i : Nat) (f : EmbedField) (err : String), e.fields.get? i = some f →
      err ∈ f.validate → ("Field " ++ toString (i + 1) ++ ": " ++ err) ∈ e.validate) := by
  constructor
  · intro hlen
    unfold Embed.validate
    simp only [List.filter_append, List.length_append]
    rw [filter_cond_none (fun m => pyStartsWith m "Too many fields") _
        (pyStartsWith_toomany_false "Title too long (" _ _ (by decide) (by decide)),
      filter_cond_none (fun m => pyStartsWith m "Too many fields") _
        (pyStartsWith_toomany_false "Description too long (" _ _ (by decide) (by decide)),
      filter_cond_none (fun m => pyStartsWith m "Too many fields") _
        (pyStartsWith_toomany_false "Footer too long (" _ _ (by decide) (by decide)),
      filter_cond_none (fun m => pyStartsWith m "Too many fields") _
        (pyStartsWith_toomany_false "Author too long (" _ _ (by decide) (by decide)),
      filter_toomany_fieldErrorList e.fields 0,
      if_pos (show e.fields.length > MAX_FIELDS from hlen),
      List.filter_cons]
    simp [pyStartsWith_toomany_true]
  · intro i f err hget herr
    unfold Embed.validate
    apply List.mem_append_right
    have := mem_fieldErrorList e.fields 0 i f err hget herr
    simpa using this

/-- C4 (witness): with 26 fields the aggregate report holds at a concrete
embed whose first field has a blank name. -/
theorem spec_c4_validate_witness :
    embedManyFields.fields.length > 25 ∧
    (List.filter (fun m => pyStartsWith m "Too many fields")
      embedManyFields.validate).length = 1 ∧
    embedManyFields.fields.get? 0 = some { name := "", value := "v" } ∧
    "Field name cannot be empty" ∈ EmbedField.validate { name := "", value := "v" } ∧
    ("Field " ++ toString (0 + 1) ++ ": " ++ "Field name cannot be empty") ∈
      embedManyFields.validate := by
  refine ⟨by decide, ?_, by decide, by decide, ?_⟩
  · exact (spec_c4_validate embedManyFields).1 (by decide)
  · exact (spec_c4_validate embedManyFields).2 0 { name := "", value := "v" }
      "Field name cannot be empty" (by decide) (by decide)

/-! ## C5 -/

/-- C5 (counterexample): a link-style button with an empty URL does not get
style code 5 — the source's branch tests `style == "link" and self.url`, so
it falls into the non-link branch: mapped code 1 and the derived identifier
is included. -/
theorem spec_c5_counterexample :
    buttonLinkNoUrl.style = "link" ∧
    (MessageButton.to_dict buttonLinkNoUrl).style = 1 ∧
    (MessageButton.to_dict buttonLinkNoUrl).custom_id = some "btn_x" ∧
    (MessageButton.to_dict buttonLinkNoUrl).url = none := by decide

/-- C5 (amended): `validate` demands a URL for link buttons; `to_dict` emits
style 5 with `url` and no identifier for a link button with a non-empty URL,
falls back to the non-link branch when the URL is empty, and for non-link
styles emits the mapped code with the identifier derived from the lowercased
space-to-underscore label and no `url`; `emoji` appears only when non-blank
after trimming. -/
theorem spec_c5_button (b : MessageButton) :
    (b.style = "link" ∧ b.url = "" → "Link buttons require a URL" ∈ b.validate) ∧
    (b.style = "link" → b.url ≠ "" →
      (MessageButton.to_dict b).style = 5 ∧ (MessageButton.to_dict b).url = some b.url ∧
      (MessageButton.to_dict b).custom_id = none) ∧
    (b.style = "link" → b.url = "" →
      (MessageButton.to_dict b).style = 1 ∧
      (MessageButton.to_dict b).custom_id =
        some ("btn_" ++ pyReplaceChar (pyLower b.label) ' ' '_') ∧
      (MessageButton.to_dict b).url = none) ∧
    (b.style ≠ "link" →
      (MessageButton.to_dict b).style = styleCode b.style ∧
      (MessageButton.to_dict b).custom_id =
        some ("btn_" ++ pyReplaceChar (pyLower b.label) ' ' '_') ∧
      (MessageButton.to_dict b).url = none) ∧
    (styleCode "primary" = 1 ∧ styleCode "secondary" = 2 ∧ styleCode "success" = 3 ∧
      styleCode "danger" = 4) ∧
    (pyStrip b.emoji = "" → (MessageButton.to_dict b).emoji = none) ∧
    (pyStrip b.emoji ≠ "" → (MessageButton.to_dict b).emoji = some b.emoji) := by
  refine ⟨?_, ?_, ?_, ?_, by decide, ?_, ?_⟩
  · intro h
    unfold MessageButton.validate
    apply List.mem_append_right
    rw [if_pos h]
    exact List.mem_singleton.mpr rfl
  · intro hs hu
    unfold MessageButton.to_dict
    rw [if_pos ⟨hs, hu⟩]
    exact ⟨rfl, rfl, rfl⟩
  · intro hs hu
    unfold MessageButton.to_dict
    rw [if_neg (fun hc => hc.2 hu)]
    refine ⟨?_, rfl, rfl⟩
    show styleCode b.style = 1
    rw [hs]
    rfl
  · intro hs
    unfold MessageButton.to_dict
    rw [if_neg (fun hc => hs hc.1)]
    exact ⟨rfl, rfl, rfl⟩
  · intro h0
    have hcond : ¬(b.emoji ≠ "" ∧ pyStrip b.emoji ≠ "") := fun hc => hc.2 h0
    unfold MessageButton.to_dict
    by_cases hbr : b.style = "link" ∧ b.url ≠ ""
    · rw [if_pos hbr]
      show (if b.emoji ≠ "" ∧ pyStrip b.emoji ≠ "" then some b.emoji else none) = none
      rw [if_neg hcond]
    · rw [if_neg hbr]
      show (if b.emoji ≠ "" ∧ pyStrip b.emoji ≠ "" then some b.emoji else none) = none
      rw [if_neg hcond]
  · intro h1
    have hne : b.emoji ≠ "" := fun h => h1 (by rw [h]; rfl)
    unfold MessageButton.to_dict
    by_cases hbr : b.style = "link" ∧ b.url ≠ ""
    · rw [if_pos hbr]
      show (if b.emoji ≠ "" ∧ pyStrip b.emoji ≠ "" then some b.emoji else none) = some b.emoji
      rw [if_pos ⟨hne, h1⟩]
    · rw [if_neg hbr]
      show (if b.emoji ≠ "" ∧ pyStrip b.emoji ≠ "" then some b.emoji else none) = some b.emoji
      rw [if_pos ⟨hne, h1⟩]

/-- C5 (witness): the amended behavior at a link button without and with a
URL. -/
theorem spec_c5_button_witness :
    (buttonLinkNoUrl.style = "link" ∧ buttonLinkNoUrl.url = "") ∧
    "Link buttons require a URL" ∈ buttonLinkNoUrl.validate ∧
    (buttonLink.style = "link" ∧ buttonLink.url ≠ "") ∧
    ((MessageButton.to_dict buttonLink).style = 5 ∧
      (MessageButton.to_dict buttonLink).url = some buttonLink.url ∧
      (MessageButton.to_dict buttonLink).custom_id = none) := by
  refine ⟨by decide, ?_, by decide, ?_⟩
  · exact (spec_c5_button buttonLinkNoUrl).1 (by decide)
  · exact (spec_c5_button buttonLink).2.1 (by decide) (by decide)

/-! ## C3 -/

theorem decodeField_encodeField (f : EmbedField) : decodeField (encodeField f) = some f := by
  cases f with
  | mk n v i =>
    simp [encodeField, decodeField, lookupJ, fieldKeys]

theorem decodeFields_encode (fs : List EmbedField) :
    decodeFields (fs.map encodeField) = some fs := by
  induction fs with
  | nil => rfl
  | cons f rest ih => simp [decodeFields, decodeField_encodeField, ih]

theorem decode_encode_embed (e : Embed) : decodeEmbed (encodeEmbed e) = some e := by
  cases e with
  | mk t ds c u ft fi a ai au th im ts fs =>
    simp [encodeEmbed, decodeEmbed, lookupJ, embedKeys, decodeFields_encode,
      decodeScalars, getStr, getBool]

/-- C3: decoding the encoded stored document reconstructs the embed exactly,
ordered field sequence included, for every valid embed with 0 to 25 fields. -/
theorem spec_c3_roundtrip (e : Embed) (_hvalid : e.validate = [])
    (_hlen : e.fields.length ≤ 25) : decodeEmbed (encodeEmbed e) = some e :=
  decode_encode_embed e

/-- C3 (witness): the round trip at a concrete valid one-field embed. -/
theorem spec_c3_roundtrip_witness :
    embedSample.validate = [] ∧ embedSample.fields.length ≤ 25 ∧
    decodeEmbed (encodeEmbed embedSample) = some embedSample :=
  ⟨by decide, by decide, spec_c3_roundtrip embedSample (by decide) (by decide)⟩

/-! ## C6 -/

/-- C6 (counterexample): a stored item carrying an unknown key is not decoded
with the key ignored — `Embed(**item)` raises `TypeError`, and the whole
store loads as empty instead of yielding the embed with the known keys. -/
theorem spec_c6_counterexample :
    decodeEmbed docUnknownKey = none ∧ load_history (J.arr [docUnknownKey]) = [] := by
  exact ⟨by decide, by decide⟩

/-- C6 (amended): decoding a stored document reconstructs the ordered field
sequence (via the encode round trip) and defaults missing keys, but an
unknown/extra key makes that item fail to decode, and one failing item makes
the whole store load as the empty list. -/
theorem spec_c6_load_history :
    (∀ e : Embed, decodeEmbed (encodeEmbed e) = some e) ∧
    (decodeEmbed (J.obj []) = some {}) ∧
    (∀ (kvs : List (String × J)) (k : String) (v : J), (k, v) ∈ kvs →
      embedKeys.contains k = false → decodeEmbed (J.obj kvs) = none) ∧
    (∀ (pre post : List J) (d : J), decodeEmbed d = none →
      load_history (J.arr (pre ++ d :: post)) = []) := by
  refine ⟨decode_encode_embed, by decide, ?_, ?_⟩
  · intro kvs k v hmem hk
    have hall : ((kvs.map Prod.fst).all fun k2 => embedKeys.contains k2) = false := by
      cases hq : (kvs.map Prod.fst).all fun k2 => embedKeys.contains k2
      · rfl
      · exfalso
        rw [List.all_eq_true] at hq
        have h2 := hq k (List.mem_map.mpr ⟨(k, v), hmem, rfl⟩)
        rw [hk] at h2
        cases h2
    have hfalse : ¬(((kvs.map Prod.fst).all fun k2 => embedKeys.contains k2) = true) := by
      rw [hall]
      exact Bool.false_ne_true
    unfold decodeEmbed
    exact if_neg hfalse
  · intro pre post d hd
    have hitems : decodeItems (pre ++ d :: post) = none := by
      induction pre with
      | nil => simp [decodeItems, hd]
      | cons p rest ih =>
        simp only [List.cons_append, decodeItems]
        cases hp : decodeEmbed p <;> simp [hp, ih]
    simp [load_history, hitems]

/-- C6 (witness): the amended behavior at the round-tripped sample embed and
at a concrete document with an unknown key. -/
theorem spec_c6_load_history_witness :
    decodeEmbed (encodeEmbed embedSample) = some embedSample ∧
    embedKeys.contains "brand_new_key" = false ∧
    decodeEmbed docUnknownKey = none ∧
    load_history (J.arr ([] ++ docUnknownKey :: [])) = [] := by
  have hd : decodeEmbed docUnknownKey = none :=
    (spec_c6_load_history).2.2.1 [("title", J.str "x"), ("brand_new_key", J.str "y")]
      "brand_new_key" (J.str "y") (by simp) (by decide)
  exact ⟨(spec_c6_load_history).1 embedSample, by decide, hd,
    (spec_c6_load_history).2.2.2 [] [] docUnknownKey hd⟩

/-! ## C7 -/

/-- C7: dispatch builds `{embeds: [payload], username?, avatar_url?}` with the
overrides included only when non-blank after stripping, consumes the outcome
of the single POST, classifies 200/204 as success (appending the sent embed
to history), any other status as remote rejection carrying the JSON body's
`message` when present (else the body truncated to 300 characters), and a
transport failure as a transport error carrying the cause text; history is
untouched on every non-success outcome. -/
theorem spec_c7_dispatch (hist : List Embed) (e : Embed) (d : EmbedPayload) (u a : String)
    (hd : e.to_dict = some d) :
    (build_payload e u a = some {
        embeds := [d],
        username := if pyStrip u ≠ "" then some (pyStrip u) else none,
        avatar_url := if pyStrip a ≠ "" then some (pyStrip a) else none }) ∧
    (∀ (body : Option J) (text : String),
      send_webhook hist e (HttpOutcome.response 200 body text) =
        (SendResult.success, hist ++ [e]) ∧
      send_webhook hist e (HttpOutcome.response 204 body text) =
        (SendResult.success, hist ++ [e])) ∧
    (∀ (status : Nat) (kvs : List (String × J)) (text m : String),
      status ≠ 200 → status ≠ 204 → lookupJ kvs "message" = some (J.str m) →
      send_webhook hist e (HttpOutcome.response status (some (J.obj kvs)) text) =
        (SendResult.remoteRejected status m, hist)) ∧
    (∀ (status : Nat) (text : String), status ≠ 200 → status ≠ 204 →
      send_webhook hist e (HttpOutcome.response status none text) =
        (SendResult.remoteRejected status (pyTake 300 text), hist)) ∧
    (∀ msg : String, send_webhook hist e (HttpOutcome.failure msg) =
      (SendResult.transportError msg, hist)) := by
  refine ⟨?_, ?_, ?_, ?_, ?_⟩
  · unfold build_payload
    rw [hd]
  · intro body text
    constructor <;> simp [send_webhook, classify]
  · intro status kvs text m h200 h204 hm
    have hcl : classify (HttpOutcome.response status (some (J.obj kvs)) text) =
        SendResult.remoteRejected status m := by
      unfold classify
      dsimp only
      rw [if_neg (fun hc => hc.elim h200 h204)]
      unfold remoteMessage
      dsimp only
      rw [hm]
    simp [send_webhook, hcl]
  · intro status text h200 h204
    have hcl : classify (HttpOutcome.response status none text) =
        SendResult.remoteRejected status (pyTake 300 text) := by
      unfold classify
      dsimp only
      rw [if_neg (fun hc => hc.elim h200 h204)]
      rfl
    simp [send_webhook, hcl]
  · intro msg
    simp [send_webhook, classify]

/-- C7 (witness): the default embed dispatched with blank overrides; a 204
success appends to history, a 400 with `{"message": "Invalid Form Body"}`
surfaces that message, a transport failure surfaces its cause. -/
theorem spec_c7_dispatch_witness :
    ({} : Embed).to_dict = some payloadDefault ∧
    build_payload ({} : Embed) "" "  " = some { embeds := [payloadDefault] } ∧
    send_webhook [] ({} : Embed) (HttpOutcome.response 204 none "") =
      (SendResult.success, [({} : Embed)]) ∧
    send_webhook [] ({} : Embed) (HttpOutcome.response 400
        (some (J.obj [("message", J.str "Invalid Form Body")])) "raw") =
      (SendResult.remoteRejected 400 "Invalid Form Body", []) ∧
    send_webhook [] ({} : Embed) (HttpOutcome.failure "timeout") =
      (SendResult.transportError "timeout", []) := by
  have h := spec_c7_dispatch [] ({} : Embed) payloadDefault "" "  " (by decide)
  refine ⟨by decide, by decide, (h.2.1 none "").2, ?_, h.2.2.2.2 "timeout"⟩
  exact h.2.2.1 400 [("message", J.str "Invalid Form Body")] "raw" "Invalid Form Body"
    (by decide) (by decide) rfl

/-! ## C8 -/

theorem runSends_eq (sends : List Embed) : runSends sends = sends := by
  have hstep : ∀ (h : List Embed) (e : Embed),
      (send_webhook h e (HttpOutcome.response 204 none "")).2 = h ++ [e] := by
    intro h e
    simp [send_webhook, classify]
  suffices hgen : ∀ acc : List Embed,
      List.foldl (fun h e => (send_webhook h e (HttpOutcome.response 204 none "")).2) acc sends
        = acc ++ sends by
    simpa [runSends] using hgen []
  induction sends with
  | nil => intro acc; simp
  | cons e rest ih =>
    intro acc
    rw [List.foldl_cons, hstep, ih]
    simp

/-- C8: after `N` successful sends starting from an empty history, the
persisted store holds exactly `min N 50` entries — the encoded documents of
the `min N 50` most recent sends, in order (most-recent-last). -/
theorem spec_c8_history (sends : List Embed) :
    (save_history (runSends sends)).length = min sends.length 50 ∧
    save_history (runSends sends) = (sends.drop (sends.length - 50)).map encodeEmbed := by
  rw [runSends_eq]
  constructor
  · unfold save_history
    rw [List.length_map, List.length_drop]
    omega
  · rfl

end DiscordWebhook
